import Mathlib

/-!
Shallow embedding of the Danswer admin front-end pages under verification:

* the Salesforce KB Articles connector admin page (`MainSection` in the
  source): fetches connector indexing statuses and public credentials,
  derives the selected Salesforce credential and the filtered list of
  Salesforce indexing statuses, and renders a loading indicator, a fixed
  failure message, or the main body (credential summary or credential form,
  optional connectors summary table, connector-creation form or hint text);

* the bot-configuration creation page (`Page` in the source): fetches the
  document sets and the assistant profiles, and renders an error callout or
  the creation form.

JavaScript runtime behaviour that the page logic depends on is modelled
explicitly: truthiness of values, optional chaining on a possibly missing
`credential_json` object, template-literal conversion of a string array
(which JavaScript renders as the elements joined by commas), and the event
handlers' effect sequences.
-/

namespace Danswer

/-- A JavaScript value as it can appear in a `credential_json` payload.
`obj` stands for any object or array value (always truthy in JavaScript). -/
inductive JsValue where
  | undef
  | null
  | bool (b : Bool)
  | num (n : Int)
  | str (s : String)
  | obj
  deriving Repr, DecidableEq

/-- JavaScript truthiness of a value. -/
def jsTruthy : JsValue → Bool
  | JsValue.undef => false
  | JsValue.null => false
  | JsValue.bool b => b
  | JsValue.num n => n != 0
  | JsValue.str s => s != ""
  | JsValue.obj => true

/-- A JSON object, as a list of key/value bindings (keys unique in practice;
property access returns the first binding). -/
abbrev JsObject := List (String × JsValue)

/-- Property access `o.k` on an object: `undefined` when the key is absent. -/
def jsField (o : JsObject) (k : String) : JsValue :=
  (o.lookup k).getD JsValue.undef

/-- Optional-chaining access `o?.k`: `undefined` when the receiver is
`null`/`undefined`, ordinary property access otherwise. -/
def jsFieldOpt (o : Option JsObject) (k : String) : JsValue :=
  match o with
  | none => JsValue.undef
  | some fields => jsField fields k

/-- JavaScript conversion of an array of strings to a string, as performed by
a template literal: `Array.prototype.toString`, i.e. the elements joined by
`","`. -/
def jsArrayToString : List String → String
  | [] => ""
  | [x] => x
  | x :: y :: ys => x ++ "," ++ jsArrayToString (y :: ys)

/-- `SfKbArticlesConfig` from `@/lib/types`: the connector-specific
configuration of a Salesforce KB Articles connector. -/
structure SfKbArticlesConfig where
  requested_objects : List String
  deriving Repr, DecidableEq

/-- The part of a connector record the page reads: its `source` tag and its
`connector_specific_config`. -/
structure Connector where
  source : String
  connector_specific_config : SfKbArticlesConfig
  deriving Repr, DecidableEq

/-- `ConnectorIndexingStatus`: a join of a connector with its indexing state;
the page only reads the embedded connector. -/
structure ConnectorIndexingStatus where
  connector : Connector
  deriving Repr, DecidableEq

/-- A stored credential: an opaque id and a JSON payload that may be absent. -/
structure Credential where
  id : Nat
  credential_json : Option JsObject
  deriving Repr, DecidableEq

/-- `connectorIndexingStatuses.filter((s) => s.connector.source === "salesforce")`
from the Salesforce page. -/
def salesforceConnectorIndexingStatuses
    (connectorIndexingStatuses : List ConnectorIndexingStatus) :
    List ConnectorIndexingStatus :=
  connectorIndexingStatuses.filter
    (fun connectorIndexingStatus =>
      connectorIndexingStatus.connector.source == "salesforce")

/-- The predicate `(credential) => credential.credential_json?.sf_username`
used to select the Salesforce credential (truthiness of the accessed field). -/
def sfKbArticlesCredentialPredicate (credential : Credential) : Bool :=
  jsTruthy (jsFieldOpt credential.credential_json "sf_username")

/-- `credentialsData.find((credential) => credential.credential_json?.sf_username)`:
the first credential whose payload has a truthy `sf_username`. -/
def sfKbArticlesCredential (credentialsData : List Credential) :
    Option Credential :=
  credentialsData.find? sfKbArticlesCredentialPredicate

/-- Backend calls and cache operations the page's handlers can issue. -/
inductive UiEffect where
  | deleteCredential (id : Nat)
  | refreshCredentials
  | linkCredential (connectorId : Nat) (credentialId : Nat)
  | mutateIndexingStatus
  deriving Repr, DecidableEq

/-- The delete-credential button's click handler:
`await adminDeleteCredential(id); refreshCredentials();` — the effects in
the order they are issued (the deletion is awaited before the re-fetch). -/
def deleteCredentialOnClick (id : Nat) : List UiEffect :=
  [UiEffect.deleteCredential id, UiEffect.refreshCredentials]

/-- Recognises a backend deletion call in an effect trace. -/
def isDeleteCredentialCall : UiEffect → Bool
  | UiEffect.deleteCredential _ => true
  | _ => false

/-- Recognises a credential re-fetch in an effect trace. -/
def isRefreshCredentialsCall : UiEffect → Bool
  | UiEffect.refreshCredentials => true
  | _ => false

/-- The rendered existing-credential summary: the displayed `sf_username`
value and the delete button's effect trace. -/
structure CredentialSummary where
  sf_username : JsValue
  onDeleteClick : List UiEffect
  deriving Repr, DecidableEq

/-- The props the page passes to `ConnectorForm` when it renders it. -/
structure ConnectorFormProps where
  source : String
  inputType : String
  credentialId : Nat
  refreshFreq : Nat
  initialRequestedObjects : List String
  deriving Repr, DecidableEq

/-- The rendered connectors summary table: its rows (the filtered indexing
statuses, in order) and the derived "Connectors" special column, one value
per row. -/
structure ConnectorsTableRender where
  rows : List ConnectorIndexingStatus
  connectorsColumn : List String
  deriving Repr, DecidableEq

/-- The special column's `getValue`:
``` `${ccPairStatus.connector.connector_specific_config.requested_objects}` ```
— the template-literal conversion of the requested-objects array. -/
def connectorsColumnValue (ccPairStatus : ConnectorIndexingStatus) : String :=
  jsArrayToString ccPairStatus.connector.connector_specific_config.requested_objects

/-- What the main body of the Salesforce page renders, as a structure:
which of the mutually exclusive / optional pieces are present and with
which data. -/
structure MainBody where
  credentialSummary : Option CredentialSummary
  credentialForm : Bool
  summaryTable : Option ConnectorsTableRender
  connectorForm : Option ConnectorFormProps
  deriving Repr, DecidableEq

/-- The main body of the Salesforce page, rendered from successfully fetched
data: Step 1 shows the credential summary when a Salesforce credential is
found and the credential-entry form otherwise; Step 2 shows the summary
table exactly when the filtered status list is non-empty, and the
connector-creation form exactly when a credential is found (`source:
"sfkbarticles"`, `inputType: "poll"`, `credentialId` of that credential,
`refreshFreq: 10 * 60`). -/
def mainBody (connectorIndexingStatuses : List ConnectorIndexingStatus)
    (credentialsData : List Credential) : MainBody :=
  let sfStatuses := salesforceConnectorIndexingStatuses connectorIndexingStatuses
  let sfCred := sfKbArticlesCredential credentialsData
  { credentialSummary := sfCred.map (fun c =>
      { sf_username := jsFieldOpt c.credential_json "sf_username"
        onDeleteClick := deleteCredentialOnClick c.id })
    credentialForm := sfCred.isNone
    summaryTable :=
      if sfStatuses.length > 0 then
        some { rows := sfStatuses
               connectorsColumn := sfStatuses.map connectorsColumnValue }
      else none
    connectorForm := sfCred.map (fun c =>
      { source := "sfkbarticles"
        inputType := "poll"
        credentialId := c.id
        refreshFreq := 10 * 60
        initialRequestedObjects := [] }) }

/-- The Salesforce page's render outcome: the loading indicator, a fixed
failure message, or the main body. -/
inductive SfRender where
  | loading
  | failureMessage (msg : String)
  | main (body : MainBody)
  deriving Repr, DecidableEq

/-- `MainSection` of the Salesforce page: the guard chain over the two SWR
fetch states, then the main body.  Mirrors the source order: loading check
first, then `isConnectorIndexingStatusesError || !connectorIndexingStatuses`,
then `isCredentialsError || !credentialsData`. -/
def mainSection (connectorIndexingStatuses : Option (List ConnectorIndexingStatus))
    (isConnectorIndexingStatusesLoading : Bool)
    (isConnectorIndexingStatusesError : Bool)
    (credentialsData : Option (List Credential))
    (isCredentialsLoading : Bool)
    (isCredentialsError : Bool) : SfRender :=
  if (connectorIndexingStatuses.isNone && isConnectorIndexingStatusesLoading)
      || (credentialsData.isNone && isCredentialsLoading) then
    SfRender.loading
  else if isConnectorIndexingStatusesError || connectorIndexingStatuses.isNone then
    SfRender.failureMessage "Failed to load connectors"
  else if isCredentialsError || credentialsData.isNone then
    SfRender.failureMessage "Failed to load credentials"
  else
    SfRender.main (mainBody (connectorIndexingStatuses.getD [])
      (credentialsData.getD []))

/-- A document-set record; the bot-config page only passes these through. -/
structure DocumentSet where
  name : String
  deriving Repr, DecidableEq

/-- An assistant/persona record; passed through to the creation form. -/
structure Persona where
  name : String
  deriving Repr, DecidableEq

/-- The document-set fetch response: its HTTP success flag, the body text
read by `.text()` on failure, and the parsed document sets read by `.json()`
on success. -/
structure FetchResponse where
  ok : Bool
  body : String
  json : List DocumentSet
  deriving Repr, DecidableEq

/-- The bot-config creation page's render outcome. -/
inductive BotConfigRender where
  | errorCallout (errorTitle : String) (errorMsg : String)
  | creationForm (documentSets : List DocumentSet) (personas : List Persona)
  deriving Repr, DecidableEq

/-- Truthiness of the assistant-fetch error value (a string or absent);
`if (assistantsFetchError)` in the source. -/
def jsTruthyErrorValue : Option String → Bool
  | none => false
  | some s => s != ""

/-- The bot-config creation `Page`: document-set failure is checked first
and renders the error callout with the response body appended to the fixed
message; then the assistant-fetch error; otherwise the creation form with
the fetched document sets and assistants. -/
def botConfigPage (documentSetsResponse : FetchResponse)
    (assistants : List Persona)
    (assistantsFetchError : Option String) : BotConfigRender :=
  if !documentSetsResponse.ok then
    BotConfigRender.errorCallout "Something went wrong :("
      ("Failed to fetch document sets - " ++ documentSetsResponse.body)
  else if jsTruthyErrorValue assistantsFetchError then
    BotConfigRender.errorCallout "Something went wrong :("
      ("Failed to fetch assistants - " ++ assistantsFetchError.getD "")
  else
    BotConfigRender.creationForm documentSetsResponse.json assistants

/-! ### Concrete records used by counterexamples and witnesses -/

/-- A credential whose payload has no `sf_username` key. -/
def credNoUsername : Credential :=
  { id := 3, credential_json := some [("sf_client_id", JsValue.str "cid")] }

/-- A credential whose payload has a truthy `sf_username`. -/
def credWithUsername : Credential :=
  { id := 7, credential_json := some [("sf_username", JsValue.str "admin")] }

/-- A second credential with a truthy `sf_username`, later in the list. -/
def credWithUsername2 : Credential :=
  { id := 9, credential_json := some [("sf_username", JsValue.str "second")] }

/-- A credential with no `credential_json` payload at all. -/
def credNoJson : Credential := { id := 11, credential_json := none }

/-- An indexing status of a connector with `source = "salesforce"`. -/
def sfStatus : ConnectorIndexingStatus :=
  { connector := { source := "salesforce"
                   connector_specific_config := { requested_objects := ["Orchestrator", "Studio"] } } }

/-- An indexing status of a connector of another source. -/
def webStatus : ConnectorIndexingStatus :=
  { connector := { source := "web"
                   connector_specific_config := { requested_objects := [] } } }

/-- An indexing status of a connector with `source = "sfkbarticles"` (the tag
the creation form submits). -/
def sfkbStatus : ConnectorIndexingStatus :=
  { connector := { source := "sfkbarticles"
                   connector_specific_config := { requested_objects := ["Robot"] } } }

/-- The connector-form props the page builds for `credWithUsername`. -/
def formPropsForCred7 : ConnectorFormProps :=
  { source := "sfkbarticles"
    inputType := "poll"
    credentialId := 7
    refreshFreq := 600
    initialRequestedObjects := [] }

/-- The summary table the page renders for `[sfStatus]`. -/
def salesforceTable : ConnectorsTableRender :=
  { rows := salesforceConnectorIndexingStatuses [sfStatus]
    connectorsColumn :=
      (salesforceConnectorIndexingStatuses [sfStatus]).map connectorsColumnValue }

/-- The tail of a comma join: one `"," ++ element` block per element. -/
def commaTail : List String → String
  | [] => ""
  | a :: as => "," ++ a ++ commaTail as

/-! ### Auxiliary lemmas -/

theorem intercalate_go_comma (l : List String) (acc : String) :
    String.intercalate.go acc "," l = acc ++ commaTail l := by
  induction l generalizing acc with
  | nil => simp [String.intercalate.go, commaTail]
  | cons a as ih =>
    simp only [String.intercalate.go, commaTail, ih]
    simp [String.append_assoc]

theorem jsArrayToString_cons (x : String) (xs : List String) :
    jsArrayToString (x :: xs) = x ++ commaTail xs := by
  induction xs generalizing x with
  | nil => simp [jsArrayToString, commaTail]
  | cons y ys ih =>
    simp only [jsArrayToString, commaTail, ih]
    simp [String.append_assoc]

/-- The JavaScript array-to-string conversion is exactly the elements joined
by commas. -/
theorem jsArrayToString_eq_intercalate (l : List String) :
    jsArrayToString l = String.intercalate "," l := by
  cases l with
  | nil => rfl
  | cons x xs => simp [String.intercalate, intercalate_go_comma, jsArrayToString_cons]

/-! ### Claims -/

/-- Claim C1 as stated is false: with a matching credential and a
`"salesforce"` indexing status present, the page renders the summary table
but also still renders the connector-creation form (the form is gated only
on credential presence in the source, not on the absence of a connector). -/
theorem c1_counterexample :
    (sfKbArticlesCredential [credWithUsername]).isSome = true
    ∧ salesforceConnectorIndexingStatuses [sfStatus] ≠ []
    ∧ (mainBody [sfStatus] [credWithUsername]).summaryTable.isSome = true
    ∧ (mainBody [sfStatus] [credWithUsername]).connectorForm
        = some { source := "sfkbarticles", inputType := "poll", credentialId := 7,
                 refreshFreq := 600, initialRequestedObjects := [] } := by
  decide

/-- Claim C1 (amended): whenever a matching credential exists and at least
one indexing status has `connector.source = "salesforce"`, the rendered
output contains the summary table (rows = the filtered statuses, with the
derived Connectors column), and the connector-creation form is rendered as
well, since it is gated only on credential presence. -/
theorem c1_salesforce_page_table_and_form (cs : List ConnectorIndexingStatus)
    (cr : List Credential) (c : Credential)
    (hc : sfKbArticlesCredential cr = some c)
    (hs : salesforceConnectorIndexingStatuses cs ≠ []) :
    (mainBody cs cr).summaryTable
      = some { rows := salesforceConnectorIndexingStatuses cs
               connectorsColumn :=
                 (salesforceConnectorIndexingStatuses cs).map connectorsColumnValue }
    ∧ (mainBody cs cr).connectorForm.isSome = true := by
  have hlen : 0 < (salesforceConnectorIndexingStatuses cs).length :=
    List.length_pos.mpr hs
  simp [mainBody, hc, hlen]

/-- Witness for C1 (amended) at a concrete state. -/
theorem c1_salesforce_page_table_and_form_witness :
    (mainBody [sfStatus] [credWithUsername]).summaryTable
      = some { rows := salesforceConnectorIndexingStatuses [sfStatus]
               connectorsColumn :=
                 (salesforceConnectorIndexingStatuses [sfStatus]).map connectorsColumnValue }
    ∧ (mainBody [sfStatus] [credWithUsername]).connectorForm.isSome = true :=
  c1_salesforce_page_table_and_form [sfStatus] [credWithUsername] credWithUsername
    (by decide) (by decide)

/-- Claim C2: the credential selection picks the first credential whose
`credential_json` has a truthy `sf_username` (later matches and all
non-matching entries are ignored), and when no entry matches, the main body
renders the credential-entry form and no existing-credential summary. -/
theorem c2_first_matching_credential_selected (l₁ l₂ : List Credential)
    (c : Credential) (cs : List ConnectorIndexingStatus) (cr : List Credential) :
    ((∀ c' ∈ l₁, sfKbArticlesCredentialPredicate c' = false) →
        sfKbArticlesCredentialPredicate c = true →
        sfKbArticlesCredential (l₁ ++ c :: l₂) = some c)
    ∧ ((∀ c' ∈ cr, sfKbArticlesCredentialPredicate c' = false) →
        (mainBody cs cr).credentialForm = true
          ∧ (mainBody cs cr).credentialSummary = none) := by
  constructor
  · intro hpre hc
    induction l₁ with
    | nil => simp [sfKbArticlesCredential, List.find?_cons, hc]
    | cons a as ih =>
      have ha : sfKbArticlesCredentialPredicate a = false := hpre a (by simp)
      have has : ∀ c' ∈ as, sfKbArticlesCredentialPredicate c' = false :=
        fun c' h => hpre c' (by simp [h])
      have := ih has
      simpa [sfKbArticlesCredential, List.find?_cons, ha] using this
  · intro hnone
    have hfind : sfKbArticlesCredential cr = none := by
      apply List.find?_eq_none.mpr
      intro x hx
      simp [hnone x hx]
    simp [mainBody, hfind]

/-- Witness for C2 at concrete lists: the first matching credential (after a
non-matching one, before a second match) is selected, and a list with no
match renders the credential form and no summary. -/
theorem c2_first_matching_credential_selected_witness :
    sfKbArticlesCredential [credNoUsername, credWithUsername, credWithUsername2]
        = some credWithUsername
    ∧ ((mainBody [] [credNoUsername]).credentialForm = true
        ∧ (mainBody [] [credNoUsername]).credentialSummary = none) :=
  ⟨(c2_first_matching_credential_selected [credNoUsername] [credWithUsername2]
        credWithUsername [] []).1 (by decide) (by decide),
    (c2_first_matching_credential_selected [] [] credWithUsername [] [credNoUsername]).2
      (by decide)⟩

/-- Claim C3: the Salesforce filter returns exactly the statuses whose
`connector.source` is `"salesforce"`: membership is preserved and reflected,
the result is a sublist of the input (input order), and the number of rows
equals the number of matching records. -/
theorem c3_salesforce_filter_exact (l : List ConnectorIndexingStatus) :
    (∀ s, s ∈ salesforceConnectorIndexingStatuses l
        ↔ s ∈ l ∧ s.connector.source = "salesforce")
    ∧ (salesforceConnectorIndexingStatuses l).Sublist l
    ∧ (salesforceConnectorIndexingStatuses l).length
        = l.countP (fun s => s.connector.source == "salesforce") := by
  refine ⟨fun s => ?_, List.filter_sublist _, ?_⟩
  · simp [salesforceConnectorIndexingStatuses, List.mem_filter]
  · simp [salesforceConnectorIndexingStatuses,
      (List.countP_eq_length_filter _ _).symm]

/-- Claim C4: the creation form is wired with source tag `"sfkbarticles"`,
and no status whose connector carries that tag is ever kept by the
`"salesforce"` summary filter. -/
theorem c4_created_connectors_excluded (cs : List ConnectorIndexingStatus)
    (cr : List Credential) (f : ConnectorFormProps) (s : ConnectorIndexingStatus)
    (l : List ConnectorIndexingStatus) :
    ((mainBody cs cr).connectorForm = some f → f.source = "sfkbarticles")
    ∧ (s.connector.source = "sfkbarticles" →
        s ∉ salesforceConnectorIndexingStatuses l) := by
  constructor
  · intro h
    simp [mainBody, Option.map_eq_some'] at h
    obtain ⟨c, hc, rfl⟩ := h
    rfl
  · intro hsrc hmem
    have hkeep := (List.mem_filter.mp hmem).2
    rw [hsrc] at hkeep
    exact absurd hkeep (by decide)

/-- Witness for C4: the concretely rendered form carries the
`"sfkbarticles"` tag, and a status with that tag is excluded from the
filtered list built from it alone. -/
theorem c4_created_connectors_excluded_witness :
    formPropsForCred7.source = "sfkbarticles"
    ∧ sfkbStatus ∉ salesforceConnectorIndexingStatuses [sfkbStatus] :=
  ⟨(c4_created_connectors_excluded [] [credWithUsername] formPropsForCred7
        sfkbStatus [sfkbStatus]).1 (by decide),
    (c4_created_connectors_excluded [] [] formPropsForCred7
        sfkbStatus [sfkbStatus]).2 rfl⟩

/-- Claim C5: when a credential is selected, the rendered delete action is
wired to that credential, and its effect trace issues exactly one backend
deletion call (for that credential's id) and exactly one credential
re-fetch, the re-fetch strictly after the deletion call completes. -/
theorem c5_delete_then_refresh (cs : List ConnectorIndexingStatus)
    (cr : List Credential) (c : Credential)
    (hc : sfKbArticlesCredential cr = some c) :
    (mainBody cs cr).credentialSummary
      = some { sf_username := jsFieldOpt c.credential_json "sf_username"
               onDeleteClick := deleteCredentialOnClick c.id }
    ∧ (deleteCredentialOnClick c.id).countP isDeleteCredentialCall = 1
    ∧ (deleteCredentialOnClick c.id).countP isRefreshCredentialsCall = 1
    ∧ deleteCredentialOnClick c.id
        = [UiEffect.deleteCredential c.id, UiEffect.refreshCredentials] := by
  refine ⟨?_, ?_, ?_, rfl⟩
  · simp [mainBody, hc]
  · simp [deleteCredentialOnClick, List.countP_cons, isDeleteCredentialCall]
  · simp [deleteCredentialOnClick, List.countP_cons, isRefreshCredentialsCall]

/-- Witness for C5 at a concrete credential list. -/
theorem c5_delete_then_refresh_witness :
    (mainBody [] [credWithUsername]).credentialSummary
      = some { sf_username := jsFieldOpt credWithUsername.credential_json "sf_username"
               onDeleteClick := deleteCredentialOnClick credWithUsername.id }
    ∧ (deleteCredentialOnClick credWithUsername.id).countP isDeleteCredentialCall = 1
    ∧ (deleteCredentialOnClick credWithUsername.id).countP isRefreshCredentialsCall = 1
    ∧ deleteCredentialOnClick credWithUsername.id
        = [UiEffect.deleteCredential credWithUsername.id, UiEffect.refreshCredentials] :=
  c5_delete_then_refresh [] [credWithUsername] credWithUsername (by decide)

/-- Claim C6: on a non-success document-set response, the bot-config page
renders the error callout whose message is the fixed text followed by the
response body (so it contains the body), and does not render the creation
form, whatever the assistant-fetch outcome was. -/
theorem c6_document_set_failure_callout (documentSetsResponse : FetchResponse)
    (assistants : List Persona) (assistantsFetchError : Option String)
    (h : documentSetsResponse.ok = false) :
    botConfigPage documentSetsResponse assistants assistantsFetchError
        = BotConfigRender.errorCallout "Something went wrong :("
            ("Failed to fetch document sets - " ++ documentSetsResponse.body)
    ∧ ∀ ds ps, botConfigPage documentSetsResponse assistants assistantsFetchError
        ≠ BotConfigRender.creationForm ds ps := by
  constructor
  · simp [botConfigPage, h]
  · intro ds ps hcontra
    simp [botConfigPage, h] at hcontra

/-- Witness for C6 at a concrete failing response (body `"boom"`), with the
assistant fetch succeeding. -/
theorem c6_document_set_failure_callout_witness :
    botConfigPage { ok := false, body := "boom", json := [] } [] none
        = BotConfigRender.errorCallout "Something went wrong :("
            ("Failed to fetch document sets - " ++ "boom")
    ∧ botConfigPage { ok := false, body := "boom", json := [] } [] none
        ≠ BotConfigRender.creationForm [] [] :=
  ⟨(c6_document_set_failure_callout { ok := false, body := "boom", json := [] }
      [] none rfl).1,
    (c6_document_set_failure_callout { ok := false, body := "boom", json := [] }
      [] none rfl).2 [] []⟩

/-- Claim C7: past the loading state, whenever either fetch reports an error
or yields no data, the page renders one of the two fixed failure messages
and does not render the main body (so no forms and no table). -/
theorem c7_fetch_error_failure_message
    (st : Option (List ConnectorIndexingStatus)) (sl se : Bool)
    (cd : Option (List Credential)) (cl ce : Bool)
    (hload : ((st.isNone && sl) || (cd.isNone && cl)) = false)
    (herr : se = true ∨ st = none ∨ ce = true ∨ cd = none) :
    (mainSection st sl se cd cl ce
        = SfRender.failureMessage "Failed to load connectors"
      ∨ mainSection st sl se cd cl ce
        = SfRender.failureMessage "Failed to load credentials")
    ∧ ∀ b, mainSection st sl se cd cl ce ≠ SfRender.main b := by
  rcases st with _ | s <;> rcases cd with _ | cdata <;>
    cases se <;> cases ce <;> simp_all [mainSection]

/-- Witness for C7: indexing-status fetch errored, credentials loaded. -/
theorem c7_fetch_error_failure_message_witness :
    mainSection (some []) false true (some []) false false
        = SfRender.failureMessage "Failed to load connectors"
      ∨ mainSection (some []) false true (some []) false false
        = SfRender.failureMessage "Failed to load credentials" :=
  (c7_fetch_error_failure_message (some []) false true (some []) false false
    (by decide) (Or.inl rfl)).1

/-- Claim C8: whenever the connector-configuration form is rendered, it is
wired with the selected credential's id as `credentialId` and a poll
interval of `10 * 60 = 600` seconds (and poll input type). -/
theorem c8_connector_form_wiring (cs : List ConnectorIndexingStatus)
    (cr : List Credential) (f : ConnectorFormProps)
    (h : (mainBody cs cr).connectorForm = some f) :
    Option.map Credential.id (sfKbArticlesCredential cr) = some f.credentialId
    ∧ f.refreshFreq = 10 * 60
    ∧ f.refreshFreq = 600
    ∧ f.inputType = "poll" := by
  simp [mainBody, Option.map_eq_some'] at h
  obtain ⟨c, hc, rfl⟩ := h
  exact ⟨by simp [hc], rfl, rfl, rfl⟩

/-- Witness for C8 at a concrete state whose form is rendered. -/
theorem c8_connector_form_wiring_witness :
    Option.map Credential.id (sfKbArticlesCredential [credWithUsername])
        = some formPropsForCred7.credentialId
    ∧ formPropsForCred7.refreshFreq = 10 * 60
    ∧ formPropsForCred7.refreshFreq = 600
    ∧ formPropsForCred7.inputType = "poll" :=
  c8_connector_form_wiring [] [credWithUsername] formPropsForCred7 (by decide)

/-- Claim C9: in the rendered summary table, the "Connectors" column value of
every row is that row's `requested_objects` list rendered as its elements
joined by commas. -/
theorem c9_connectors_column_joined_by_commas (cs : List ConnectorIndexingStatus)
    (cr : List Credential) (t : ConnectorsTableRender)
    (h : (mainBody cs cr).summaryTable = some t) :
    t.connectorsColumn
      = t.rows.map (fun s =>
          String.intercalate "," s.connector.connector_specific_config.requested_objects) := by
  by_cases hl : 0 < (salesforceConnectorIndexingStatuses cs).length
  · simp [mainBody, hl] at h
    rw [← h]
    simp [connectorsColumnValue, jsArrayToString_eq_intercalate]
  · simp [mainBody, hl] at h

/-- Witness for C9 at a concrete state with one Salesforce connector. -/
theorem c9_connectors_column_joined_by_commas_witness :
    (salesforceTable).connectorsColumn
      = (salesforceTable).rows.map (fun s =>
          String.intercalate "," s.connector.connector_specific_config.requested_objects) :=
  c9_connectors_column_joined_by_commas [sfStatus] [credWithUsername]
    salesforceTable (by decide)

/-- Claim C10: a credential with no `credential_json` payload is simply a
non-match for the selection predicate (the optional chaining yields
`undefined`, which is falsy), so the search skips it instead of failing. -/
theorem c10_missing_payload_skipped (c : Credential) (rest : List Credential)
    (h : c.credential_json = none) :
    sfKbArticlesCredentialPredicate c = false
    ∧ sfKbArticlesCredential (c :: rest) = sfKbArticlesCredential rest := by
  have hp : sfKbArticlesCredentialPredicate c = false := by
    simp [sfKbArticlesCredentialPredicate, h, jsFieldOpt, jsTruthy]
  refine ⟨hp, ?_⟩
  simp [sfKbArticlesCredential, List.find?_cons, hp]

/-- Witness for C10: the payload-less credential is skipped in favour of a
later matching one. -/
theorem c10_missing_payload_skipped_witness :
    sfKbArticlesCredentialPredicate credNoJson = false
    ∧ sfKbArticlesCredential [credNoJson, credWithUsername]
        = sfKbArticlesCredential [credWithUsername] :=
  c10_missing_payload_skipped credNoJson [credWithUsername] rfl

end Danswer
